import Mathlib

/-!
# Verification of the idrx-go blockchain core

Shallow embedding of the `blockchain` package of the idrx-go repository:
the TokenAmount decimal conversions (built on shopspring/decimal), the
static network registry, the multi-chain client (connection failover,
transactor creation, transaction waiting) and the bridge orchestration
(`CompleteBridge`).  Machine integers are modelled as `Nat`/`Int`
(`uint64` values in the repository never overflow in the modelled paths),
`shopspring/decimal` values by their exact rational value `ℚ` (every
operation the repository uses — `Mul`, integer `Pow`, `BigInt`, `Div` —
depends only on that value), and network I/O by explicit oracles
(`ChainEnv`).  Errors are an inductive mirroring the `fmt.Errorf`
values the Go code can produce.
-/

namespace IdrxGo

/-! ## Decimal arithmetic (shopspring/decimal)

`decimal.Decimal` is `value * 10^exp` for a big integer `value`; we model a
decimal by its exact rational value.  `Mul` is exact (values multiply,
exponents add).  `Pow` at a nonnegative integer exponent is binary
exponentiation built from exact `Mul`s, hence exactly `b ^ k`.
`BigInt` rescales to exponent 0 using `big.Int.Quo`, i.e. truncation
toward zero.  `Div` is `DivRound` at the package default
`DivisionPrecision = 16`: the exact quotient rounded half away from zero
to 16 fractional digits. -/

/-- shopspring/decimal `DivisionPrecision` package default. -/
def divisionPrecision : ℕ := 16

/-- Truncation of a rational toward zero: the semantics of
`decimal.Decimal.BigInt` (which rescales to exponent 0 via `big.Int.Quo`). -/
def ratTrunc (q : ℚ) : ℤ := if 0 ≤ q then ⌊q⌋ else -⌊-q⌋

/-- Rounding to the nearest integer, ties away from zero: the rounding used
by `decimal.Decimal.DivRound` at precision 0. -/
def roundHalfAway (q : ℚ) : ℤ := if 0 ≤ q then ⌊q + 1 / 2⌋ else -⌊-q + 1 / 2⌋

/-- `decimal.Decimal.Div`: the exact quotient rounded half away from zero to
`DivisionPrecision` (= 16) fractional digits. -/
def decimalDiv (a b : ℚ) : ℚ :=
  ((roundHalfAway (a / b * 10 ^ divisionPrecision) : ℚ)) / 10 ^ divisionPrecision

/-! ## TokenAmount -/

/-- `TokenAmount`: an exact decimal amount plus the decimal precision of the
base unit.  `Decimals` is `int32` in Go; every construction in the
repository uses a nonnegative value (`uint8` network decimals or a caller
precision), so it is modelled as `ℕ`. -/
structure TokenAmount where
  Amount : ℚ
  Decimals : ℕ
  deriving DecidableEq

/-- `TokenAmount.ToWei`: `ta.Amount.Mul(10.Pow(ta.Decimals)).BigInt()` —
exact multiplication by `10^Decimals` followed by truncation toward zero. -/
def TokenAmount.ToWei (ta : TokenAmount) : ℤ :=
  ratTrunc (ta.Amount * 10 ^ ta.Decimals)

/-- `FromWei`: `decimal.NewFromBigInt(wei, 0).Div(10.Pow(decimals))` — the
division carries shopspring's 16-digit division precision. -/
def FromWei (wei : ℤ) (decimals : ℕ) : TokenAmount :=
  { Amount := decimalDiv (wei : ℚ) (10 ^ decimals), Decimals := decimals }

/-- `ParseTokenAmount`: parses the string with `decimal.NewFromString`
(abstracted as the `newFromString` argument, successful results being the
exact rational value of the literal) and pairs the parsed amount with the
given precision.  No check relates the parsed amount to `decimals`. -/
def ParseTokenAmount (newFromString : String → Except String ℚ)
    (amountStr : String) (decimals : ℕ) : Except String TokenAmount :=
  match newFromString amountStr with
  | .error e => .error ("invalid amount format: " ++ e)
  | .ok amount => .ok { Amount := amount, Decimals := decimals }

/-! ## Network registry

`SupportedNetworks` is a Go map literal; it is modelled as an association
list in source declaration order.  All lookups are order-independent
because network names and chain IDs are unique across entries.
Durations (`BlockTime`, timeouts) are in nanoseconds, as `time.Duration`. -/

/-- `NetworkConfig`: static per-network descriptor.  `ContractAddress` is the
20-byte address as a number (`common.Address{}` — the zero address — is 0). -/
structure NetworkConfig where
  ChainID : ℕ
  Name : String
  RPCEndpoints : List String
  ContractAddress : ℕ
  BlockTime : ℕ
  GasLimit : ℕ
  MaxGasPrice : ℕ
  IsTestnet : Bool
  Decimals : ℕ
  deriving DecidableEq

def BaseMainnetConfig : NetworkConfig :=
  { ChainID := 8453, Name := "Base",
    RPCEndpoints := ["https://mainnet.base.org", "https://base.llamarpc.com"],
    ContractAddress := 0x18Bc5bcC660cf2B9cE3cd51a404aFe1a0cBD3C22,
    BlockTime := 2000000000, GasLimit := 3000000, MaxGasPrice := 10000000000,
    IsTestnet := false, Decimals := 2 }

def PolygonMainnetConfig : NetworkConfig :=
  { ChainID := 137, Name := "Polygon",
    RPCEndpoints := ["https://polygon-rpc.com", "https://polygon.llamarpc.com"],
    ContractAddress := 0x649a2DA7B28E0D54c13D5eFf95d3A660652742cC,
    BlockTime := 2000000000, GasLimit := 3000000, MaxGasPrice := 50000000000,
    IsTestnet := false, Decimals := 0 }

def BSCMainnetConfig : NetworkConfig :=
  { ChainID := 56, Name := "BNB Smart Chain",
    RPCEndpoints := ["https://bsc-dataseed.binance.org", "https://binance.llamarpc.com"],
    ContractAddress := 0x649a2DA7B28E0D54c13D5eFf95d3A660652742cC,
    BlockTime := 3000000000, GasLimit := 3000000, MaxGasPrice := 5000000000,
    IsTestnet := false, Decimals := 0 }

def LiskMainnetConfig : NetworkConfig :=
  { ChainID := 1135, Name := "Lisk",
    RPCEndpoints := ["https://rpc.api.lisk.com"],
    ContractAddress := 0x18Bc5bcC660cf2B9cE3cd51a404aFe1a0cBD3C22,
    BlockTime := 2000000000, GasLimit := 3000000, MaxGasPrice := 1000000000,
    IsTestnet := false, Decimals := 2 }

def KaiaMainnetConfig : NetworkConfig :=
  { ChainID := 8217, Name := "Kaia",
    RPCEndpoints := ["https://public-en.node.kaia.io"],
    ContractAddress := 0x18Bc5bcC660cf2B9cE3cd51a404aFe1a0cBD3C22,
    BlockTime := 2000000000, GasLimit := 3000000, MaxGasPrice := 1000000000,
    IsTestnet := false, Decimals := 2 }

def WorldChainMainnetConfig : NetworkConfig :=
  { ChainID := 480, Name := "World Chain",
    RPCEndpoints := ["https://worldchain-mainnet.g.alchemy.com/public"],
    ContractAddress := 0x18Bc5bcC660cf2B9cE3cd51a404aFe1a0cBD3C22,
    BlockTime := 2000000000, GasLimit := 3000000, MaxGasPrice := 1000000000,
    IsTestnet := false, Decimals := 2 }

def EtherlinkMainnetConfig : NetworkConfig :=
  { ChainID := 42793, Name := "Etherlink",
    RPCEndpoints := ["https://node.mainnet.etherlink.com"],
    ContractAddress := 0x18bc5bcc660cf2b9ce3cd51a404afe1a0cbd3c22,
    BlockTime := 2000000000, GasLimit := 30000000, MaxGasPrice := 1000000000,
    IsTestnet := false, Decimals := 2 }

def GnosisMainnetConfig : NetworkConfig :=
  { ChainID := 100, Name := "Gnosis",
    RPCEndpoints := ["https://rpc.gnosischain.com", "https://0xrpc.io/gno"],
    ContractAddress := 0x18bc5bcc660cf2b9ce3cd51a404afe1a0cbd3c22,
    BlockTime := 5000000000, GasLimit := 3000000, MaxGasPrice := 500000000,
    IsTestnet := false, Decimals := 2 }

/-- The `SupportedNetworks` table keyed by network name. -/
def SupportedNetworks : List (String × NetworkConfig) :=
  [("BaseMainnet", BaseMainnetConfig),
   ("PolygonMainnet", PolygonMainnetConfig),
   ("BSCMainnet", BSCMainnetConfig),
   ("LiskMainnet", LiskMainnetConfig),
   ("KaiaMainnet", KaiaMainnetConfig),
   ("WorldChainMainnet", WorldChainMainnetConfig),
   ("EtherlinkMainnet", EtherlinkMainnetConfig),
   ("GnosisMainnet", GnosisMainnetConfig)]

/-- `GetNetworkConfig`: lookup by network name. -/
def GetNetworkConfig (networkName : String) : Option NetworkConfig :=
  (SupportedNetworks.find? (fun p => p.1 == networkName)).map (fun p => p.2)

/-- `GetNetworkConfigByChainID`: reverse lookup by chain ID, also returning
the network name. -/
def GetNetworkConfigByChainID (chainID : ℕ) : Option (NetworkConfig × String) :=
  (SupportedNetworks.find? (fun p => p.2.ChainID == chainID)).map (fun p => (p.2, p.1))

/-! ## Receipts and event logs (go-ethereum `types`) -/

/-- One entry of `Receipt.Logs`: the indexed topics (32-byte words as
numbers; `Topics[0]` is the event-signature hash) and the ABI-encoded data
words. -/
structure LogEntry where
  Topics : List ℕ
  Data : List ℤ
  deriving DecidableEq

/-- `types.Receipt`: inclusion status (`types.ReceiptStatusSuccessful = 1`)
and emitted logs. -/
structure Receipt where
  Status : ℕ
  Logs : List LogEntry
  deriving DecidableEq

/-- go-ethereum `types.ReceiptStatusSuccessful`. -/
def ReceiptStatusSuccessful : ℕ := 1

/-! ## The multi-chain client

All network I/O is abstracted as a deterministic oracle `ChainEnv`; client
and contract handles are numbers.  Timeout arguments record the context
deadline (in nanoseconds) a call was issued under. -/

/-- Oracle for every external call the client makes.  Each field gives the
outcome of one RPC/contract operation for given arguments. -/
structure ChainEnv where
  /-- `crypto.HexToECDSA` on the configured private key. -/
  parseKey : String → Except String Unit
  /-- `ethclient.DialContext endpoint` under the given timeout. -/
  dialContext : String → ℤ → Except String ℕ
  /-- `contracts.NewIDRX address client`. -/
  newIDRX : ℕ → ℕ → Except String ℕ
  /-- `client.ChainID(ctx)` for (client handle, context timeout). -/
  chainIDCall : ℕ → ℕ → Except String ℕ
  /-- `client.TransactionReceipt` for (client, txHash) at poll tick `k`. -/
  transactionReceipt : ℕ → ℕ → ℕ → Except String Receipt
  /-- `contract.BurnBridge(transactor, wei, toChainID)` on a contract handle. -/
  burnBridgeCall : ℕ → ℤ → ℕ → Except String ℕ
  /-- `contract.MintBridge(transactor, to, wei, fromChainID, nonce)`. -/
  mintBridgeCall : ℕ → ℕ → ℤ → ℕ → ℤ → Except String ℕ

/-- The mutable fields of `Client` the modelled operations read: the
per-chain client lists, the per-chain contract handles, and the RPC
timeout. -/
structure ClientState where
  clients : List (ℕ × List ℕ)
  contracts : List (ℕ × ℕ)
  timeout : ℤ

/-- Error values of the modelled operations, mirroring the `fmt.Errorf`
values the Go code constructs (the constructor argument is the wrapped
inner error or the formatted datum).  `specPartialFailure` is modelled from
the spec: the `PartialBridgeFailure` condition of spec §7, carrying the
resume nonce; it is part of the spec's error taxonomy and is never
constructed by the code, which lets the spec's claim about the mint-failure
result be stated and compared against what the code returns. -/
inductive BError where
  | chainNotConnected (chainID : ℕ)
  | noAvailableClients (chainID : ℕ)
  | contractNotAvailable (chainID : ℕ)
  | chainIDQueryFailed (msg : String)
  | chainIDMismatch (clientChainID requestedChainID : ℕ)
  | burnCallFailed (msg : String)
  | mintCallFailed (msg : String)
  | txWaitTimeout (txHash : ℕ)
  | nilDeref (site : String)
  | burnOnSourceFailed (e : BError)
  | burnTxFailed (e : BError)
  | burnReverted
  | nonceNotFound
  | nonceExtractionFailed (e : BError)
  | mintOnDestFailed (e : BError)
  | specPartialFailure (nonce : ℤ)
  deriving DecidableEq

/-- `err == nil` on a Go result. -/
def exceptOk {ε α : Type} : Except ε α → Bool
  | .ok _ => true
  | .error _ => false

/-- The `5 * time.Second` liveness-probe timeout in `GetClient`, ns. -/
def probeTimeout : ℕ := 5000000000

/-- `Client.GetClient`: ordered failover over the chain's recorded clients —
probe each with `ChainID` under the 5 s timeout, return the first that
answers; error if the chain has no entry or no probe succeeds. -/
def GetClient (st : ClientState) (env : ChainEnv) (chainID : ℕ) : Except BError ℕ :=
  match st.clients.lookup chainID with
  | none => .error (.chainNotConnected chainID)
  | some clientList =>
    match clientList.find? (fun client => exceptOk (env.chainIDCall client probeTimeout)) with
    | some client => .ok client
    | none => .error (.noAvailableClients chainID)

/-- `Client.GetContract`: the chain's bound contract handle, if any. -/
def GetContract (st : ClientState) (chainID : ℕ) : Except BError ℕ :=
  match st.contracts.lookup chainID with
  | none => .error (.contractNotAvailable chainID)
  | some contract => .ok contract

/-- `bind.TransactOpts` as configured by `CreateTransactor`: the chain ID it
signs for and the gas settings applied from the network config. -/
structure TransactOpts where
  chainID : ℕ
  GasLimit : ℕ
  GasPrice : Option ℕ
  deriving DecidableEq

/-- `Client.CreateTransactor`: acquire a client, query the node's chain ID
under the caller's context, fail on mismatch with the requested chain ID,
else build the signer and apply the network's gas settings.
(`bind.NewKeyedTransactorWithChainID` errors only on a nil chain ID, which
cannot occur here, so it is modelled as pure.) -/
def CreateTransactor (st : ClientState) (env : ChainEnv) (ctxTimeout chainID : ℕ) :
    Except BError TransactOpts :=
  match GetClient st env chainID with
  | .error e => .error e
  | .ok client =>
    match env.chainIDCall client ctxTimeout with
    | .error msg => .error (.chainIDQueryFailed msg)
    | .ok clientChainID =>
      if clientChainID ≠ chainID then
        .error (.chainIDMismatch clientChainID chainID)
      else
        match GetNetworkConfigByChainID chainID with
        | some (networkConfig, _) =>
          .ok { chainID := clientChainID,
                GasLimit := networkConfig.GasLimit,
                GasPrice := if networkConfig.MaxGasPrice > 0 then
                    some networkConfig.MaxGasPrice else none }
        | none => .ok { chainID := clientChainID, GasLimit := 0, GasPrice := none }

/-- `time.Minute` in nanoseconds. -/
def minuteNs : ℕ := 60000000000

/-- The confirmation deadline `WaitForTransaction` computes for a registered
chain: `blockTime * 10`, raised to one minute if smaller. -/
def waitTimeoutFor (blockTime : ℕ) : ℕ :=
  if blockTime * 10 < minuteNs then minuteNs else blockTime * 10

/-- The receipt-poll interval: `blockTime / 2` ("check twice per block"). -/
def pollInterval (blockTime : ℕ) : ℕ := blockTime / 2

/-- The poll loop of `WaitForTransaction`: at each tick look up the receipt,
returning it if the call succeeds and continuing on any error; when the
fuel (the number of ticks that fire before the deadline) is exhausted, the
deadline context fires and the timeout error is returned. -/
def waitLoop (env : ChainEnv) (client txHash : ℕ) : ℕ → ℕ → Except BError Receipt
  | 0, _ => .error (.txWaitTimeout txHash)
  | fuel + 1, tick =>
    match env.transactionReceipt client txHash tick with
    | .ok receipt => .ok receipt
    | .error _ => waitLoop env client txHash fuel (tick + 1)

/-- `Client.WaitForTransaction`: acquire a client, compute the deadline and
poll interval from the chain's block time, and poll until receipt or
deadline.  Ticks fire at `interval, 2*interval, ...`; a tick coinciding
exactly with the deadline races it in Go's `select`, resolved here to the
deadline (the conservative reading).  For a chain ID absent from the
registry the Go code dereferences the nil `networkConfig` when creating the
ticker — a runtime panic, modelled as the distinguished `nilDeref` error. -/
def WaitForTransaction (st : ClientState) (env : ChainEnv) (chainID txHash : ℕ) :
    Except BError Receipt :=
  match GetClient st env chainID with
  | .error e => .error e
  | .ok client =>
    match GetNetworkConfigByChainID chainID with
    | none => .error (.nilDeref "WaitForTransaction ticker on nil networkConfig")
    | some (networkConfig, _) =>
      waitLoop env client txHash
        ((waitTimeoutFor networkConfig.BlockTime - 1) / pollInterval networkConfig.BlockTime) 1

/-! ## Bridge orchestration -/

/-- `common.HexToHash("0x")`: parsing the empty hex string yields the
all-zero 32-byte hash. -/
def burnBridgeTopic : ℕ := 0

/-- `Client.extractBridgeNonceFromReceipt`: scan the receipt's logs for one
whose first topic equals `common.HexToHash("0x")` (the zero hash) and on a
match return the hardcoded placeholder `big.NewInt(0)` with success (the
code's comment: "For now, return a placeholder"); otherwise report that the
bridge nonce was not found. -/
def extractBridgeNonceFromReceipt (receipt : Receipt) : Except BError ℤ :=
  match receipt.Logs.find? (fun log =>
      match log.Topics.head? with
      | some topic0 => topic0 == burnBridgeTopic
      | none => false) with
  | some _ => .ok 0
  | none => .error .nonceNotFound

/-- `BridgeRequest`: a cross-chain bridge request. -/
structure BridgeRequest where
  Amount : TokenAmount
  ToChainID : ℕ
  ToAddress : ℕ
  FromChainID : ℕ

/-- Instrumentation of the contract-level mutating calls a bridge operation
issues: each event records that the corresponding signed transaction was
submitted, with the arguments passed to the contract binding. -/
inductive TraceEvent where
  | burnSubmitted (wei : ℤ) (toChainID : ℕ)
  | mintSubmitted (toAddr : ℕ) (wei : ℤ) (fromChainID : ℕ) (nonce : ℤ)

def TraceEvent.isMint : TraceEvent → Bool
  | .mintSubmitted _ _ _ _ => true
  | _ => false

def TraceEvent.isBurn : TraceEvent → Bool
  | .burnSubmitted _ _ => true
  | _ => false

def TraceEvent.mintNonce : TraceEvent → Option ℤ
  | .mintSubmitted _ _ _ nonce => some nonce
  | _ => none

/-- `Client.BurnBridge`: get the source chain's contract, create a
transactor for the source chain, then submit
`contract.BurnBridge(transactor, amount.ToWei(), toChainID)`.  The second
component is the trace of submitted transactions. -/
def BurnBridge (st : ClientState) (env : ChainEnv) (ctxTimeout : ℕ)
    (request : BridgeRequest) : Except BError ℕ × List TraceEvent :=
  match GetContract st request.FromChainID with
  | .error e => (.error e, [])
  | .ok contract =>
    match CreateTransactor st env ctxTimeout request.FromChainID with
    | .error e => (.error e, [])
    | .ok _transactor =>
      (match env.burnBridgeCall contract request.Amount.ToWei request.ToChainID with
       | .error msg => .error (.burnCallFailed msg)
       | .ok tx => .ok tx,
       [.burnSubmitted request.Amount.ToWei request.ToChainID])

/-- `Client.MintBridge`: get the destination chain's contract, create a
transactor for it, then submit
`contract.MintBridge(transactor, to, amount.ToWei(), fromChainID, nonce)`. -/
def MintBridge (st : ClientState) (env : ChainEnv) (ctxTimeout : ℕ)
    (chainID toAddr : ℕ) (amount : TokenAmount) (fromChainID : ℕ) (bridgeNonce : ℤ) :
    Except BError ℕ × List TraceEvent :=
  match GetContract st chainID with
  | .error e => (.error e, [])
  | .ok contract =>
    match CreateTransactor st env ctxTimeout chainID with
    | .error e => (.error e, [])
    | .ok _transactor =>
      (match env.mintBridgeCall contract toAddr amount.ToWei fromChainID bridgeNonce with
       | .error msg => .error (.mintCallFailed msg)
       | .ok tx => .ok tx,
       [.mintSubmitted toAddr amount.ToWei fromChainID bridgeNonce])

/-- `Client.CompleteBridge`: burn on the source chain, wait for the burn
receipt, require success status, extract the bridge nonce from the receipt,
then mint on the destination chain with the extracted nonce.  Each failure
returns the corresponding wrapped error. -/
def CompleteBridge (st : ClientState) (env : ChainEnv) (ctxTimeout : ℕ)
    (request : BridgeRequest) : Except BError Unit × List TraceEvent :=
  match (BurnBridge st env ctxTimeout request).1 with
  | .error e => (.error (.burnOnSourceFailed e), (BurnBridge st env ctxTimeout request).2)
  | .ok burnTxHash =>
    match WaitForTransaction st env request.FromChainID burnTxHash with
    | .error e => (.error (.burnTxFailed e), (BurnBridge st env ctxTimeout request).2)
    | .ok receipt =>
      if receipt.Status ≠ ReceiptStatusSuccessful then
        (.error .burnReverted, (BurnBridge st env ctxTimeout request).2)
      else
        match extractBridgeNonceFromReceipt receipt with
        | .error e => (.error (.nonceExtractionFailed e), (BurnBridge st env ctxTimeout request).2)
        | .ok bridgeNonce =>
          match (MintBridge st env ctxTimeout request.ToChainID request.ToAddress
              request.Amount request.FromChainID bridgeNonce).1 with
          | .error e => (.error (.mintOnDestFailed e),
              (BurnBridge st env ctxTimeout request).2
                ++ (MintBridge st env ctxTimeout request.ToChainID request.ToAddress
                      request.Amount request.FromChainID bridgeNonce).2)
          | .ok _ => (.ok (),
              (BurnBridge st env ctxTimeout request).2
                ++ (MintBridge st env ctxTimeout request.ToChainID request.ToAddress
                      request.Amount request.FromChainID bridgeNonce).2)

/-! ## Client construction -/

/-- `ClientConfig`: private key and RPC timeout (`time.Duration`, int64 ns). -/
structure ClientConfig where
  PrivateKeyHex : String
  Timeout : ℤ

/-- The per-network dial loop of `Client.initializeNetworks`: dial every
endpoint under the client timeout, keep the clients that answered (dial
errors are logged and skipped), and create the contract instance from the
first successful connection (a `NewIDRX` failure aborts the whole
initialization).  The second component records every dial attempted as
(endpoint, timeout). -/
def dialLoop (env : ChainEnv) (timeout : ℤ) (contractAddress : ℕ) (networkName : String) :
    List String → List ℕ → Option ℕ →
    Except String (List ℕ × Option ℕ) × List (String × ℤ)
  | [], ethClients, contractInstance => (.ok (ethClients, contractInstance), [])
  | rpcEndpoint :: rest, ethClients, contractInstance =>
    match env.dialContext rpcEndpoint timeout with
    | .error _ =>
      let p := dialLoop env timeout contractAddress networkName rest ethClients contractInstance
      (p.1, (rpcEndpoint, timeout) :: p.2)
    | .ok ethClient =>
      match contractInstance with
      | some c =>
        let p := dialLoop env timeout contractAddress networkName rest
          (ethClients ++ [ethClient]) (some c)
        (p.1, (rpcEndpoint, timeout) :: p.2)
      | none =>
        match env.newIDRX contractAddress ethClient with
        | .error e =>
          (.error ("failed to create contract instance for " ++ networkName ++ ": " ++ e),
           [(rpcEndpoint, timeout)])
        | .ok contractInstance2 =>
          let p := dialLoop env timeout contractAddress networkName rest
            (ethClients ++ [ethClient]) (some contractInstance2)
          (p.1, (rpcEndpoint, timeout) :: p.2)

/-- `Client.initializeNetworks`: for every supported network with a deployed
contract, dial its endpoints; fail if none answered, else record the
clients and the contract handle under the network's chain ID.  (Go iterates
the map in unspecified order; the resulting maps are order-independent
because chain IDs are unique.) -/
def initNetworks (env : ChainEnv) (timeout : ℤ) :
    List (String × NetworkConfig) →
    Except String (List (ℕ × List ℕ) × List (ℕ × ℕ)) × List (String × ℤ)
  | [] => (.ok ([], []), [])
  | (networkName, networkConfig) :: rest =>
    if networkConfig.ContractAddress = 0 then
      initNetworks env timeout rest
    else
      match (dialLoop env timeout networkConfig.ContractAddress networkName
          networkConfig.RPCEndpoints [] none).1 with
      | .error e =>
        (.error e,
         (dialLoop env timeout networkConfig.ContractAddress networkName
            networkConfig.RPCEndpoints [] none).2)
      | .ok (ethClients, contractInstance) =>
        if ethClients = [] then
          (.error ("failed to connect to any RPC endpoint for " ++ networkName),
           (dialLoop env timeout networkConfig.ContractAddress networkName
              networkConfig.RPCEndpoints [] none).2)
        else
          match (initNetworks env timeout rest).1 with
          | .error e =>
            (.error e,
             (dialLoop env timeout networkConfig.ContractAddress networkName
                networkConfig.RPCEndpoints [] none).2 ++ (initNetworks env timeout rest).2)
          | .ok (clientsMap, contractsMap) =>
            (.ok ((networkConfig.ChainID, ethClients) :: clientsMap,
                  (networkConfig.ChainID, contractInstance.getD 0) :: contractsMap),
             (dialLoop env timeout networkConfig.ContractAddress networkName
                networkConfig.RPCEndpoints [] none).2 ++ (initNetworks env timeout rest).2)

/-- `NewClient`: parse the private key, default a zero configured timeout to
30 seconds, and connect to all supported networks, every dial using the
client timeout.  Returns the constructed state and the dial trace. -/
def NewClient (env : ChainEnv) (config : ClientConfig) :
    Except String ClientState × List (String × ℤ) :=
  match env.parseKey config.PrivateKeyHex with
  | .error e => (.error ("failed to parse private key: " ++ e), [])
  | .ok _ =>
    match (initNetworks env (if config.Timeout = 0 then 30000000000 else config.Timeout)
        SupportedNetworks).1 with
    | .error e =>
      (.error ("failed to initialize networks: " ++ e),
       (initNetworks env (if config.Timeout = 0 then 30000000000 else config.Timeout)
          SupportedNetworks).2)
    | .ok (clientsMap, contractsMap) =>
      (.ok { clients := clientsMap, contracts := contractsMap,
             timeout := if config.Timeout = 0 then 30000000000 else config.Timeout },
       (initNetworks env (if config.Timeout = 0 then 30000000000 else config.Timeout)
          SupportedNetworks).2)

/-! ## Concrete fixtures used by the witnesses and counterexamples -/

/-- A client state holding Base (8453, client 1, contract 11) and Polygon
(137, client 2, contract 12). -/
def fixtureState : ClientState :=
  { clients := [(8453, [1]), (137, [2])], contracts := [(8453, 11), (137, 12)],
    timeout := 30000000000 }

/-- A state with no connections and no contracts. -/
def emptyState : ClientState := { clients := [], contracts := [], timeout := 30000000000 }

/-- A state whose only chain (42) has two clients, for probe-failover cases. -/
def downState : ClientState :=
  { clients := [(42, [7, 8])], contracts := [], timeout := 30000000000 }

/-- A successful burn receipt whose single log carries the zero topic (the
only topic the placeholder extraction matches) and data word 42. -/
def fixtureReceiptOk : Receipt := { Status := 1, Logs := [{ Topics := [0], Data := [42] }] }

/-- A reverted receipt (status 0). -/
def fixtureReceiptReverted : Receipt := { Status := 0, Logs := [] }

/-- Environment builder: node chain IDs per client, receipt poll results per
tick, and fixed burn/mint submission outcomes; key parsing, dialing and
contract binding always succeed. -/
def mkEnv (nodeChainID : ℕ → ℕ) (receiptResult : ℕ → Except String Receipt)
    (burnResult mintResult : Except String ℕ) : ChainEnv :=
  { parseKey := fun _ => .ok ()
    dialContext := fun _ _ => .ok 1
    newIDRX := fun _ _ => .ok 11
    chainIDCall := fun client _ => .ok (nodeChainID client)
    transactionReceipt := fun _ _ tick => receiptResult tick
    burnBridgeCall := fun _ _ _ => burnResult
    mintBridgeCall := fun _ _ _ _ _ => mintResult }

/-- Client 1 is a Base (8453) node, every other client a Polygon (137) node. -/
def stdNodeChainID : ℕ → ℕ := fun client => if client == 1 then 8453 else 137

def envBridgeOk : ChainEnv :=
  mkEnv stdNodeChainID (fun _ => .ok fixtureReceiptOk) (.ok 100) (.ok 200)

def envMintFails : ChainEnv :=
  mkEnv stdNodeChainID (fun _ => .ok fixtureReceiptOk) (.ok 100) (.error "rpc error")

def envBurnReverts : ChainEnv :=
  mkEnv stdNodeChainID (fun _ => .ok fixtureReceiptReverted) (.ok 100) (.ok 200)

def envNoReceipt : ChainEnv :=
  mkEnv stdNodeChainID (fun _ => .error "not found") (.ok 100) (.ok 200)

/-- Every node reports chain 137, whatever chain the client is held under. -/
def envWrongNode : ChainEnv :=
  mkEnv (fun _ => 137) (fun _ => .error "not found") (.ok 100) (.ok 200)

/-- Every liveness probe fails. -/
def envAllDown : ChainEnv :=
  { parseKey := fun _ => .ok ()
    dialContext := fun _ _ => .ok 1
    newIDRX := fun _ _ => .ok 11
    chainIDCall := fun _ _ => .error "connection refused"
    transactionReceipt := fun _ _ _ => .error "not found"
    burnBridgeCall := fun _ _ _ => .ok 100
    mintBridgeCall := fun _ _ _ _ _ => .ok 200 }

/-- A well-formed request: 500 units at precision 2 from Base to Polygon. -/
def fixtureRequest : BridgeRequest :=
  { Amount := { Amount := (500 : ℚ), Decimals := 2 }, ToChainID := 137,
    ToAddress := 777, FromChainID := 8453 }

/-- A request violating every validation rule of the claim: source equals
destination and the amount is zero. -/
def invalidRequest : BridgeRequest :=
  { Amount := { Amount := (0 : ℚ), Decimals := 2 }, ToChainID := 8453,
    ToAddress := 777, FromChainID := 8453 }

end IdrxGo

namespace IdrxGo

theorem ratTrunc_intCast (z : ℤ) : ratTrunc (z : ℚ) = z := by
  unfold ratTrunc
  split
  · exact Int.floor_intCast z
  · rw [show (-(z : ℚ)) = ((-z : ℤ) : ℚ) by push_cast; ring, Int.floor_intCast]
    ring

theorem roundHalfAway_intCast (z : ℤ) : roundHalfAway (z : ℚ) = z := by
  unfold roundHalfAway
  have hhalf : ⌊(1 / 2 : ℚ)⌋ = 0 := by
    rw [Int.floor_eq_zero_iff]
    constructor <;> norm_num
  split
  · rw [Int.floor_int_add, hhalf]; ring
  · rw [show (-(z : ℚ) + 1 / 2) = ((-z : ℤ) : ℚ) + 1 / 2 by push_cast; ring,
      Int.floor_int_add, hhalf]
    ring

/-- C5 (amended): round-trip `FromWei (ToWei x) = x` for any `x` with at most
`d` fractional digits (i.e. `x = m / 10^d`) at a precision `d` not exceeding
shopspring's division precision of 16 digits. -/
theorem fromWei_toWei_roundtrip (m : ℤ) (d : ℕ) (hd : d ≤ divisionPrecision) :
    (FromWei (TokenAmount.ToWei ⟨(m : ℚ) / 10 ^ d, d⟩) d).Amount = (m : ℚ) / 10 ^ d := by
  have h10 : ((10 : ℚ) ^ d) ≠ 0 := by positivity
  have h1 : TokenAmount.ToWei ⟨(m : ℚ) / 10 ^ d, d⟩ = m := by
    show ratTrunc ((m : ℚ) / 10 ^ d * 10 ^ d) = m
    rw [div_mul_cancel₀ _ h10, ratTrunc_intCast]
  rw [h1]
  show decimalDiv (m : ℚ) (10 ^ d) = (m : ℚ) / 10 ^ d
  unfold decimalDiv
  have hde : d + (divisionPrecision - d) = divisionPrecision := Nat.add_sub_cancel' hd
  have h2 : (m : ℚ) / 10 ^ d * 10 ^ divisionPrecision
      = ((m * 10 ^ (divisionPrecision - d) : ℤ) : ℚ) := by
    rw [← hde, pow_add]
    push_cast
    field_simp
    ring
  rw [h2, roundHalfAway_intCast]
  push_cast
  rw [← hde, pow_add]
  field_simp
  ring

/-- C5 witness: the spec scenario `1000.50` at precision 2 (base units
`100050`) round-trips exactly. -/
theorem fromWei_toWei_roundtrip_witness :
    (FromWei (TokenAmount.ToWei ⟨(100050 : ℚ) / 10 ^ 2, 2⟩) 2).Amount
      = (100050 : ℚ) / 10 ^ 2 :=
  fromWei_toWei_roundtrip 100050 2 (by decide)

/-- C5 counterexample: at precision 17 (exceeding shopspring's 16-digit
division precision) the round-trip loses the value: `x = 10^-17` has at most
17 fractional digits, `ToWei` yields 1, but `FromWei 1 17` rounds to 0. -/
theorem fromWei_toWei_roundtrip_counterexample :
    (FromWei (TokenAmount.ToWei ⟨(1 : ℚ) / 10 ^ 17, 17⟩) 17).Amount
      ≠ (1 : ℚ) / 10 ^ 17 := by
  have h1 : TokenAmount.ToWei ⟨(1 : ℚ) / 10 ^ 17, 17⟩ = 1 := by
    show ratTrunc ((1 : ℚ) / 10 ^ 17 * 10 ^ 17) = 1
    rw [div_mul_cancel₀ _ (by positivity : ((10 : ℚ) ^ 17) ≠ 0)]
    rw [show (1 : ℚ) = ((1 : ℤ) : ℚ) by norm_num, ratTrunc_intCast]
  rw [h1]
  show decimalDiv ((1 : ℤ) : ℚ) (10 ^ 17) ≠ _
  unfold decimalDiv divisionPrecision
  have h2 : ((1 : ℤ) : ℚ) / 10 ^ 17 * 10 ^ 16 = 1 / 10 := by
    push_cast
    rw [div_mul_eq_mul_div, div_eq_div_iff (by positivity) (by norm_num)]
    norm_num
  rw [h2]
  have h3 : roundHalfAway ((1 : ℚ) / 10) = 0 := by
    unfold roundHalfAway
    rw [if_pos (by norm_num)]
    rw [show (1 : ℚ) / 10 + 1 / 2 = 3 / 5 by norm_num]
    rw [Int.floor_eq_iff]
    constructor <;> norm_num
  rw [h3]
  norm_num

/-- C6 (amended): `ToWei` is exact decimal truncation toward zero of
`amount * 10^d`; it agrees with `round (amount * 10^d)` exactly when the
amount has at most `d` fractional digits; and `ParseTokenAmount` accepts any
successfully parsed decimal regardless of its fractional digits versus `d`. -/
theorem toWei_trunc_spec (x : ℚ) (d : ℕ) (m : ℤ) (hm : x = (m : ℚ) / 10 ^ d) :
    TokenAmount.ToWei ⟨x, d⟩ = round (x * 10 ^ d)
  ∧ (∀ (y : ℚ), TokenAmount.ToWei ⟨y, d⟩ = ratTrunc (y * 10 ^ d))
  ∧ (∀ (newFromString : String → Except String ℚ) (s : String) (q : ℚ),
      newFromString s = Except.ok q →
      ParseTokenAmount newFromString s d = Except.ok ⟨q, d⟩) := by
  refine ⟨?_, fun y => rfl, ?_⟩
  · subst hm
    show ratTrunc ((m : ℚ) / 10 ^ d * 10 ^ d) = _
    rw [div_mul_cancel₀ _ (by positivity : ((10 : ℚ) ^ d) ≠ 0)]
    rw [ratTrunc_intCast, round_intCast]
  · intro newFromString s q h
    unfold ParseTokenAmount
    rw [h]

/-- C6 witness: a parse result with one fractional digit is accepted at
precision 0 without any representability check. -/
theorem toWei_trunc_spec_witness :
    ParseTokenAmount (fun _ => Except.ok ((1 : ℚ) / 2)) "0.5" 0
      = Except.ok ⟨(1 : ℚ) / 2, 0⟩ :=
  (toWei_trunc_spec (((5 : ℤ) : ℚ) / 10 ^ 0) 0 5 rfl).2.2
    (fun _ => Except.ok ((1 : ℚ) / 2)) "0.5" ((1 : ℚ) / 2) rfl

/-- C6 counterexample: `0.009` at precision 2 — the code truncates
`0.9` to `0`, while `round(0.009 × 10^2) = 1`; the fractional digits beyond
the precision are silently dropped. -/
theorem toWei_round_counterexample :
    TokenAmount.ToWei ⟨(9 : ℚ) / 1000, 2⟩ = 0
  ∧ round ((9 : ℚ) / 1000 * 10 ^ 2) = 1
  ∧ TokenAmount.ToWei ⟨(9 : ℚ) / 1000, 2⟩ ≠ round ((9 : ℚ) / 1000 * 10 ^ 2) := by
  have h1 : (9 : ℚ) / 1000 * 10 ^ 2 = 9 / 10 := by
    rw [div_mul_eq_mul_div, div_eq_div_iff (by norm_num) (by norm_num)]
    norm_num
  have h2 : TokenAmount.ToWei ⟨(9 : ℚ) / 1000, 2⟩ = 0 := by
    show ratTrunc ((9 : ℚ) / 1000 * 10 ^ 2) = 0
    rw [h1]
    unfold ratTrunc
    rw [if_pos (by norm_num)]
    rw [Int.floor_eq_iff]
    constructor <;> norm_num
  have h3 : round ((9 : ℚ) / 1000 * 10 ^ 2) = 1 := by
    rw [h1, round_eq]
    rw [show (9 : ℚ) / 10 + 1 / 2 = 7 / 5 by norm_num]
    rw [Int.floor_eq_iff]
    constructor <;> norm_num
  exact ⟨h2, h3, by rw [h2, h3]; decide⟩

/-! ## Helper lemmas -/

/-- Decomposition of a successful `List.find?`: the list splits at the first
element satisfying the predicate, every earlier element failing it. -/
theorem find_first_decomp {α : Type} (p : α → Bool) :
    ∀ (l : List α) (a : α), l.find? p = some a →
      ∃ l1 l2, l = l1 ++ a :: l2 ∧ (∀ x ∈ l1, p x = false) ∧ p a = true := by
  intro l
  induction l with
  | nil => intro a h; simp [List.find?] at h
  | cons b t ih =>
    intro a h
    cases hb : p b with
    | true =>
      rw [List.find?_cons, hb] at h
      refine ⟨[], t, ?_, ?_, ?_⟩
      · simpa using (Option.some.inj h).symm ▸ rfl
      · intro x hx; simp at hx
      · cases Option.some.inj h; exact hb
    | false =>
      rw [List.find?_cons, hb] at h
      obtain ⟨l1, l2, heq, hall, hpa⟩ := ih a h
      refine ⟨b :: l1, l2, by rw [heq]; rfl, ?_, hpa⟩
      intro x hx
      rcases List.mem_cons.mp hx with rfl | hx
      · exact hb
      · exact hall x hx

/-- If the receipt source never answers, the poll loop always ends in the
timeout error, whatever the fuel. -/
theorem waitLoop_timeout (env : ChainEnv) (client txHash : ℕ)
    (hnone : ∀ tick, exceptOk (env.transactionReceipt client txHash tick) = false) :
    ∀ fuel tick, waitLoop env client txHash fuel tick
      = .error (.txWaitTimeout txHash) := by
  intro fuel
  induction fuel with
  | zero => intro tick; rfl
  | succ n ih =>
    intro tick
    unfold waitLoop
    cases h : env.transactionReceipt client txHash tick with
    | ok receipt =>
      have := hnone tick
      rw [h] at this
      simp [exceptOk] at this
    | error msg => simpa using ih (tick + 1)

/-- The trace of `BurnBridge` contains no mint submission. -/
theorem burnBridge_trace_no_mint (st : ClientState) (env : ChainEnv)
    (ctxTimeout : ℕ) (request : BridgeRequest) :
    (BurnBridge st env ctxTimeout request).2.any TraceEvent.isMint = false := by
  unfold BurnBridge
  cases GetContract st request.FromChainID with
  | error e => rfl
  | ok contract =>
    cases CreateTransactor st env ctxTimeout request.FromChainID with
    | error e => rfl
    | ok transactor => rfl

/-! ## Claim theorems -/

/-- C1 (code bug shown on the code): the nonce extraction, evaluated at a
successful burn receipt whose log has the zero first topic (the only topic
the code's `common.HexToHash("0x")` comparison can match), returns the
invented placeholder nonce 0 as a successful result — not a value decoded
from the log, whose data word is 42 — while a receipt bearing a genuine
(nonzero) event-signature topic makes extraction fail. -/
theorem extractBridgeNonce_placeholder_bug :
    extractBridgeNonceFromReceipt fixtureReceiptOk = Except.ok 0
  ∧ extractBridgeNonceFromReceipt
      { Status := 1, Logs := [{ Topics := [123456], Data := [7] }] }
      = Except.error BError.nonceNotFound := by
  exact ⟨rfl, rfl⟩

/-- C3: a mint submission appears in a bridge operation's trace only after
the burn succeeded, its receipt was obtained with success status, and nonce
extraction succeeded; when the confirmation wait fails the operation ends
in the wrapped burn-failure error with no mint submitted; when the receipt
shows a revert it ends in the burn-reverted error with no mint submitted. -/
theorem completeBridge_no_mint_without_confirmed_burn (st : ClientState)
    (env : ChainEnv) (ctxTimeout : ℕ) (request : BridgeRequest) :
    ((CompleteBridge st env ctxTimeout request).2.any TraceEvent.isMint = true →
      ∃ burnTxHash receipt bridgeNonce,
        (BurnBridge st env ctxTimeout request).1 = .ok burnTxHash
        ∧ WaitForTransaction st env request.FromChainID burnTxHash = .ok receipt
        ∧ receipt.Status = ReceiptStatusSuccessful
        ∧ extractBridgeNonceFromReceipt receipt = .ok bridgeNonce)
  ∧ (∀ burnTxHash e, (BurnBridge st env ctxTimeout request).1 = .ok burnTxHash →
      WaitForTransaction st env request.FromChainID burnTxHash = .error e →
      (CompleteBridge st env ctxTimeout request).1 = .error (.burnTxFailed e)
      ∧ (CompleteBridge st env ctxTimeout request).2.any TraceEvent.isMint = false)
  ∧ (∀ burnTxHash receipt,
      (BurnBridge st env ctxTimeout request).1 = .ok burnTxHash →
      WaitForTransaction st env request.FromChainID burnTxHash = .ok receipt →
      receipt.Status ≠ ReceiptStatusSuccessful →
      (CompleteBridge st env ctxTimeout request).1 = .error .burnReverted
      ∧ (CompleteBridge st env ctxTimeout request).2.any TraceEvent.isMint = false) := by
  refine ⟨?_, ?_, ?_⟩
  · intro hmint
    cases hb : (BurnBridge st env ctxTimeout request).1 with
    | error e =>
      rw [show (CompleteBridge st env ctxTimeout request).2
            = (BurnBridge st env ctxTimeout request).2 by simp [CompleteBridge, hb]]
        at hmint
      rw [burnBridge_trace_no_mint] at hmint
      exact absurd hmint (by decide)
    | ok burnTxHash =>
      cases hw : WaitForTransaction st env request.FromChainID burnTxHash with
      | error e =>
        rw [show (CompleteBridge st env ctxTimeout request).2
              = (BurnBridge st env ctxTimeout request).2 by simp [CompleteBridge, hb, hw]]
          at hmint
        rw [burnBridge_trace_no_mint] at hmint
        exact absurd hmint (by decide)
      | ok receipt =>
        by_cases hs : receipt.Status = ReceiptStatusSuccessful
        · cases hx : extractBridgeNonceFromReceipt receipt with
          | error e =>
            rw [show (CompleteBridge st env ctxTimeout request).2
                  = (BurnBridge st env ctxTimeout request).2 by
                    simp [CompleteBridge, hb, hw, hs, hx]] at hmint
            rw [burnBridge_trace_no_mint] at hmint
            exact absurd hmint (by decide)
          | ok bridgeNonce => exact ⟨burnTxHash, receipt, bridgeNonce, rfl, hw, hs, hx⟩
        · rw [show (CompleteBridge st env ctxTimeout request).2
                = (BurnBridge st env ctxTimeout request).2 by
                  simp [CompleteBridge, hb, hw, hs]] at hmint
          rw [burnBridge_trace_no_mint] at hmint
          exact absurd hmint (by decide)
  · intro burnTxHash e hb hw
    constructor
    · simp [CompleteBridge, hb, hw]
    · rw [show (CompleteBridge st env ctxTimeout request).2
            = (BurnBridge st env ctxTimeout request).2 by simp [CompleteBridge, hb, hw]]
      exact burnBridge_trace_no_mint st env ctxTimeout request
  · intro burnTxHash receipt hb hw hs
    constructor
    · simp [CompleteBridge, hb, hw, hs]
    · rw [show (CompleteBridge st env ctxTimeout request).2
            = (BurnBridge st env ctxTimeout request).2 by simp [CompleteBridge, hb, hw, hs]]
      exact burnBridge_trace_no_mint st env ctxTimeout request

/-- C3 witness: the spec scenario — a bridge whose source burn reverts ends
in the burn-reverted error and no mint transaction is ever submitted. -/
theorem completeBridge_burn_reverted_witness :
    (CompleteBridge fixtureState envBurnReverts 7 fixtureRequest).1
      = .error .burnReverted
  ∧ (CompleteBridge fixtureState envBurnReverts 7 fixtureRequest).2.any
      TraceEvent.isMint = false :=
  (completeBridge_no_mint_without_confirmed_burn fixtureState envBurnReverts
      7 fixtureRequest).2.2 100 fixtureReceiptReverted rfl rfl (by decide)

/-- C2 counterexample: with the burn confirmed (nonce 0 extracted from the
receipt) and the destination mint call failing, `CompleteBridge` returns
the generic wrapped mint error — not a partial-bridge-failure value
carrying the extracted nonce. -/
theorem completeBridge_partial_failure_counterexample :
    (CompleteBridge fixtureState envMintFails 7 fixtureRequest).1
      = Except.error (BError.mintOnDestFailed (BError.mintCallFailed "rpc error"))
  ∧ (CompleteBridge fixtureState envMintFails 7 fixtureRequest).1
      ≠ Except.error (BError.specPartialFailure 0) := by
  have h : (CompleteBridge fixtureState envMintFails 7 fixtureRequest).1
      = Except.error (BError.mintOnDestFailed (BError.mintCallFailed "rpc error")) := rfl
  exact ⟨h, by rw [h]; simp⟩

/-- C2 (amended): when the destination mint fails after a confirmed burn
and successful nonce extraction, `CompleteBridge` returns the wrapped
error `mintOnDestFailed e` — distinguishable from every burn-stage failure
but carrying only the mint call's own error — and never a
partial-failure value carrying the nonce. -/
theorem completeBridge_mint_failure_result (st : ClientState) (env : ChainEnv)
    (ctxTimeout : ℕ) (request : BridgeRequest) (burnTxHash : ℕ) (receipt : Receipt)
    (bridgeNonce : ℤ) (e : BError)
    (hb : (BurnBridge st env ctxTimeout request).1 = .ok burnTxHash)
    (hw : WaitForTransaction st env request.FromChainID burnTxHash = .ok receipt)
    (hs : receipt.Status = ReceiptStatusSuccessful)
    (hx : extractBridgeNonceFromReceipt receipt = .ok bridgeNonce)
    (hm : (MintBridge st env ctxTimeout request.ToChainID request.ToAddress
        request.Amount request.FromChainID bridgeNonce).1 = .error e) :
    (CompleteBridge st env ctxTimeout request).1 = .error (.mintOnDestFailed e)
  ∧ ∀ resumeNonce : ℤ, (CompleteBridge st env ctxTimeout request).1
      ≠ .error (.specPartialFailure resumeNonce) := by
  have h1 : (CompleteBridge st env ctxTimeout request).1 = .error (.mintOnDestFailed e) := by
    simp [CompleteBridge, hb, hw, hs, hx, hm]
  refine ⟨h1, ?_⟩
  intro resumeNonce
  rw [h1]
  intro hc
  simp at hc

/-- C2 witness: the mint-failure scenario evaluated on the fixtures. -/
theorem completeBridge_mint_failure_result_witness :
    (CompleteBridge fixtureState envMintFails 7 fixtureRequest).1
      = .error (.mintOnDestFailed (.mintCallFailed "rpc error")) :=
  (completeBridge_mint_failure_result fixtureState envMintFails 7 fixtureRequest
      100 fixtureReceiptOk 0 (.mintCallFailed "rpc error") rfl rfl rfl rfl rfl).1

/-- C4 counterexample: a request with identical source and destination
chains and a zero amount is not rejected — the burn transaction is
submitted and the burn step reports success. -/
theorem burnBridge_no_validation_counterexample :
    invalidRequest.FromChainID = invalidRequest.ToChainID
  ∧ invalidRequest.Amount.Amount = 0
  ∧ (BurnBridge fixtureState envBridgeOk 7 invalidRequest).2.any
      TraceEvent.isBurn = true
  ∧ exceptOk (BurnBridge fixtureState envBridgeOk 7 invalidRequest).1 = true := by
  exact ⟨rfl, rfl, rfl, rfl⟩

/-- C4 (amended): the only checks performed before the burn is submitted
are that the source chain has a contract instance and that a transactor
(node chain-ID match included) could be created for the source chain; a
request whose source chain has no contract is rejected with nothing
submitted.  No destination-registration, chain-distinctness or amount
check occurs before burning. -/
theorem burnBridge_validation_spec (st : ClientState) (env : ChainEnv)
    (ctxTimeout : ℕ) (request : BridgeRequest) :
    ((BurnBridge st env ctxTimeout request).2.any TraceEvent.isBurn = true →
      (∃ contract, st.contracts.lookup request.FromChainID = some contract)
      ∧ ∃ transactor, CreateTransactor st env ctxTimeout request.FromChainID
          = .ok transactor)
  ∧ (st.contracts.lookup request.FromChainID = none →
      BurnBridge st env ctxTimeout request
        = (.error (.contractNotAvailable request.FromChainID), [])) := by
  constructor
  · intro hburn
    cases hc : st.contracts.lookup request.FromChainID with
    | none =>
      rw [show (BurnBridge st env ctxTimeout request).2 = [] by
        simp [BurnBridge, GetContract, hc]] at hburn
      exact absurd hburn (by decide)
    | some contract =>
      cases ht : CreateTransactor st env ctxTimeout request.FromChainID with
      | error e =>
        rw [show (BurnBridge st env ctxTimeout request).2 = [] by
          simp [BurnBridge, GetContract, hc, ht]] at hburn
        exact absurd hburn (by decide)
      | ok transactor => exact ⟨⟨contract, rfl⟩, transactor, rfl⟩
  · intro hc
    simp [BurnBridge, GetContract, hc]

/-- C4 witness: a source chain without a contract instance is rejected with
no burn submitted. -/
theorem burnBridge_validation_witness :
    BurnBridge emptyState envBridgeOk 7 invalidRequest
      = (.error (.contractNotAvailable 8453), []) :=
  (burnBridge_validation_spec emptyState envBridgeOk 7 invalidRequest).2 rfl

/-- C7: for every registered chain, the confirmation wait uses the deadline
`max(blockTime * 10, 1 minute)` and the poll interval `blockTime / 2`, and
a receipt source that never answers makes the wait end in the timeout
error rather than yield a receipt. -/
theorem waitForTransaction_timing_spec (chainID : ℕ) (networkConfig : NetworkConfig)
    (networkName : String)
    (hcfg : GetNetworkConfigByChainID chainID = some (networkConfig, networkName)) :
    waitTimeoutFor networkConfig.BlockTime = max (networkConfig.BlockTime * 10) minuteNs
  ∧ pollInterval networkConfig.BlockTime = networkConfig.BlockTime / 2
  ∧ ∀ (st : ClientState) (env : ChainEnv) (client txHash : ℕ),
      GetClient st env chainID = .ok client →
      (∀ tick, exceptOk (env.transactionReceipt client txHash tick) = false) →
      WaitForTransaction st env chainID txHash = .error (.txWaitTimeout txHash) := by
  refine ⟨?_, rfl, ?_⟩
  · unfold waitTimeoutFor
    rw [Nat.max_def]
    split <;> split <;> omega
  · intro st env client txHash hclient hnone
    unfold WaitForTransaction
    rw [hclient, hcfg]
    exact waitLoop_timeout env client txHash hnone _ _

/-- C7 witness: waiting on Base (block time 2 s, deadline raised to the
1-minute floor) against a source that never returns a receipt times out. -/
theorem waitForTransaction_timeout_witness :
    WaitForTransaction fixtureState envNoReceipt 8453 55
      = .error (.txWaitTimeout 55) :=
  (waitForTransaction_timing_spec 8453 BaseMainnetConfig "BaseMainnet" rfl).2.2
    fixtureState envNoReceipt 1 55 rfl (fun _ => rfl)

/-- A successful `CreateTransactor` implies the node's reported chain ID
matched the requested one, and the signer is bound to it. -/
theorem createTransactor_ok_inv (st : ClientState) (env : ChainEnv)
    (ctxTimeout chainID : ℕ) (transactor : TransactOpts)
    (h : CreateTransactor st env ctxTimeout chainID = .ok transactor) :
    ∃ client clientChainID, GetClient st env chainID = .ok client
      ∧ env.chainIDCall client ctxTimeout = .ok clientChainID
      ∧ clientChainID = chainID ∧ transactor.chainID = clientChainID := by
  unfold CreateTransactor at h
  cases hg : GetClient st env chainID with
  | error e => simp only [hg] at h; exact absurd h (by simp)
  | ok client =>
    simp only [hg] at h
    cases hc : env.chainIDCall client ctxTimeout with
    | error msg => simp only [hc] at h; exact absurd h (by simp)
    | ok clientChainID =>
      simp only [hc] at h
      by_cases hne : clientChainID ≠ chainID
      · rw [if_pos hne] at h; exact absurd h (by simp)
      · rw [if_neg hne] at h
        refine ⟨client, clientChainID, rfl, hc, not_not.mp hne, ?_⟩
        cases hn : GetNetworkConfigByChainID chainID with
        | none =>
          simp only [hn] at h
          rw [← Except.ok.inj h]
        | some cfgName =>
          obtain ⟨cfg, name⟩ := cfgName
          simp only [hn] at h
          rw [← Except.ok.inj h]

/-- C8: a transactor is returned only when the connected node reports
exactly the requested chain ID; a node reporting a different chain ID makes
`CreateTransactor` fail with the chain-ID-mismatch error and no signer. -/
theorem createTransactor_chainID_guard (st : ClientState) (env : ChainEnv)
    (ctxTimeout chainID : ℕ) :
    (∀ transactor, CreateTransactor st env ctxTimeout chainID = .ok transactor →
      ∃ client, GetClient st env chainID = .ok client
        ∧ env.chainIDCall client ctxTimeout = .ok chainID
        ∧ transactor.chainID = chainID)
  ∧ (∀ client clientChainID, GetClient st env chainID = .ok client →
      env.chainIDCall client ctxTimeout = .ok clientChainID →
      clientChainID ≠ chainID →
      CreateTransactor st env ctxTimeout chainID
        = .error (.chainIDMismatch clientChainID chainID)) := by
  constructor
  · intro transactor h
    obtain ⟨client, clientChainID, hg, hc, heq, hch⟩ :=
      createTransactor_ok_inv st env ctxTimeout chainID transactor h
    exact ⟨client, hg, heq ▸ hc, heq ▸ hch⟩
  · intro client clientChainID hg hc hne
    unfold CreateTransactor
    rw [hg]
    show (match env.chainIDCall client ctxTimeout with
      | .error msg => .error (.chainIDQueryFailed msg)
      | .ok clientChainID2 =>
        if clientChainID2 ≠ chainID then
          .error (.chainIDMismatch clientChainID2 chainID)
        else
          match GetNetworkConfigByChainID chainID with
          | some (networkConfig, _) =>
            .ok { chainID := clientChainID2,
                  GasLimit := networkConfig.GasLimit,
                  GasPrice := if networkConfig.MaxGasPrice > 0 then
                      some networkConfig.MaxGasPrice else none }
          | none => .ok { chainID := clientChainID2, GasLimit := 0, GasPrice := none } :
        Except BError TransactOpts)
      = .error (.chainIDMismatch clientChainID chainID)
    rw [hc]
    exact if_pos hne

/-- C8 witness: requesting a Base (8453) signer while the node reports
Polygon (137) fails with the mismatch error. -/
theorem createTransactor_mismatch_witness :
    CreateTransactor fixtureState envWrongNode 7 8453
      = .error (.chainIDMismatch 137 8453) :=
  (createTransactor_chainID_guard fixtureState envWrongNode 7 8453).2 1 137 rfl rfl
    (by decide)

/-- C9: `GetClient` reports the not-connected error when the chain has no
entry; with an entry it probes the recorded clients in order under the 5 s
probe timeout, returning the first client whose probe succeeds, and reports
the no-available-clients error when every probe fails. -/
theorem getClient_failover_spec (st : ClientState) (env : ChainEnv) (chainID : ℕ) :
    (st.clients.lookup chainID = none →
      GetClient st env chainID = .error (.chainNotConnected chainID))
  ∧ ∀ clientList, st.clients.lookup chainID = some clientList →
      ((∀ client ∈ clientList,
          exceptOk (env.chainIDCall client probeTimeout) = false) →
        GetClient st env chainID = .error (.noAvailableClients chainID))
      ∧ (∀ client, GetClient st env chainID = .ok client →
          ∃ tried remaining, clientList = tried ++ client :: remaining
            ∧ (∀ other ∈ tried,
                exceptOk (env.chainIDCall other probeTimeout) = false)
            ∧ exceptOk (env.chainIDCall client probeTimeout) = true) := by
  refine ⟨?_, ?_⟩
  · intro h; simp [GetClient, h]
  · intro clientList hl
    constructor
    · intro hall
      have hf : clientList.find?
          (fun client => exceptOk (env.chainIDCall client probeTimeout)) = none := by
        rw [List.find?_eq_none]
        intro x hx
        rw [hall x hx]
        simp
      simp [GetClient, hl, hf]
    · intro client hok
      have hf : clientList.find?
          (fun c => exceptOk (env.chainIDCall c probeTimeout)) = some client := by
        unfold GetClient at hok
        simp only [hl] at hok
        cases hff : clientList.find?
            (fun c => exceptOk (env.chainIDCall c probeTimeout)) with
        | none => simp only [hff] at hok; exact absurd hok (by simp)
        | some c => simp only [hff] at hok; exact congrArg some (Except.ok.inj hok)
      exact find_first_decomp _ clientList client hf

/-- C9 witness: a chain whose every recorded client fails the liveness probe
yields the no-available-clients error, not a client. -/
theorem getClient_all_down_witness :
    GetClient downState envAllDown 42 = .error (.noAvailableClients 42) :=
  ((getClient_failover_spec downState envAllDown 42).2 [7, 8] rfl).1
    (fun _ _ => rfl)

/-- Every dial the per-network loop attempts uses the client timeout. -/
theorem dialLoop_trace_timeout (env : ChainEnv) (t : ℤ) (addr : ℕ) (name : String) :
    ∀ (eps : List String) (acc : List ℕ) (ct : Option ℕ),
      ((dialLoop env t addr name eps acc ct).2.all (fun p => p.2 == t)) = true := by
  intro eps
  induction eps with
  | nil => intro acc ct; rfl
  | cons ep rest ih =>
    intro acc ct
    unfold dialLoop
    cases hd : env.dialContext ep t with
    | error e =>
      simp only [hd, List.all_cons, beq_self_eq_true, Bool.true_and]
      exact ih _ _
    | ok ethClient =>
      cases ct with
      | some c =>
        simp only [List.all_cons, beq_self_eq_true, Bool.true_and]
        exact ih _ _
      | none =>
        cases hn : env.newIDRX addr ethClient with
        | error e => simp [hn]
        | ok c2 =>
          simp only [hn, List.all_cons, beq_self_eq_true, Bool.true_and]
          exact ih _ _

/-- Every dial `initNetworks` attempts uses the client timeout. -/
theorem initNetworks_trace_timeout (env : ChainEnv) (t : ℤ) :
    ∀ networks, ((initNetworks env t networks).2.all (fun p => p.2 == t)) = true := by
  intro networks
  induction networks with
  | nil => rfl
  | cons entry rest ih =>
    obtain ⟨name, cfg⟩ := entry
    unfold initNetworks
    by_cases haddr : cfg.ContractAddress = 0
    · rw [if_pos haddr]; exact ih
    · rw [if_neg haddr]
      cases hd : (dialLoop env t cfg.ContractAddress name cfg.RPCEndpoints [] none).1 with
      | error e =>
        simp only [hd]
        exact dialLoop_trace_timeout env t cfg.ContractAddress name cfg.RPCEndpoints [] none
      | ok pr =>
        obtain ⟨ethClients, contractInstance⟩ := pr
        simp only [hd]
        by_cases he : ethClients = []
        · rw [if_pos he]
          exact dialLoop_trace_timeout env t cfg.ContractAddress name cfg.RPCEndpoints [] none
        · rw [if_neg he]
          cases hi : (initNetworks env t rest).1 with
          | error e =>
            simp only [hi, List.all_append]
            rw [dialLoop_trace_timeout env t cfg.ContractAddress name cfg.RPCEndpoints [] none,
              ih]
            rfl
          | ok maps =>
            obtain ⟨clientsMap, contractsMap⟩ := maps
            simp only [hi, List.all_append]
            rw [dialLoop_trace_timeout env t cfg.ContractAddress name cfg.RPCEndpoints [] none,
              ih]
            rfl

/-- C10: a zero configured timeout defaults to 30 seconds and any nonzero
configured timeout is used unchanged — both as the constructed client's RPC
timeout and for every dial performed during initialization. -/
theorem newClient_timeout_spec (env : ChainEnv) (config : ClientConfig) :
    ((NewClient env config).2.all
        (fun p => p.2 == (if config.Timeout = 0 then 30000000000 else config.Timeout)))
      = true
  ∧ (match (NewClient env config).1 with
      | .ok st => st.timeout
          == (if config.Timeout = 0 then 30000000000 else config.Timeout)
      | .error _ => true) = true := by
  unfold NewClient
  cases env.parseKey config.PrivateKeyHex with
  | error e => exact ⟨rfl, rfl⟩
  | ok u =>
    cases (initNetworks env (if config.Timeout = 0 then 30000000000 else config.Timeout)
        SupportedNetworks).1 with
    | error e =>
      exact ⟨initNetworks_trace_timeout env _ SupportedNetworks, rfl⟩
    | ok maps =>
      obtain ⟨clientsMap, contractsMap⟩ := maps
      refine ⟨initNetworks_trace_timeout env _ SupportedNetworks, ?_⟩
      simp

end IdrxGo
